import Mathlib

/-!
Verification development for the ralph-beads workflow session controller.

The definitions below are shallow embeddings of the repository's source:
the opencode plugin (`src/.opencode/plugin/prompts.ts`, `rust-client.ts`,
`types.ts`), the shell heuristics embedded in `commands/ralph-beads.md`
and the test script that extracts them, and the `ralph-runner` cleanup
trap concatenated in `rust-client.ts`.  Pure functions become Lean
functions; the stateful hook/tool handlers become explicit state-passing
functions over record types mirroring the TypeScript state, with the
external shell commands they issue represented as an explicit effect
trace.
-/

set_option maxHeartbeats 1000000

/-- Complexity tiers, from `types.ts`: `'trivial' | 'simple' | 'standard' | 'critical'`. -/
inductive Complexity
  | trivial
  | simple
  | standard
  | critical
deriving DecidableEq, Repr, Fintype

/-- Workflow modes, from `types.ts`: `'planning' | 'building' | 'paused' | 'complete'`. -/
inductive WorkflowMode
  | planning
  | building
  | paused
  | complete
deriving DecidableEq, Repr, Fintype

/-- Characters matched by the JavaScript regex class `\s` (ASCII part:
space, tab, newline, carriage return, form feed, vertical tab).  The task
strings in this development are ASCII. -/
def isJsWS (c : Char) : Bool :=
  c == ' ' || c == '\t' || c == '\n' || c == '\r' || c == Char.ofNat 12 || c == Char.ofNat 11

/-- Lower-cased character list of a string, embedding `task.toLowerCase()`. -/
def lowerChars (s : String) : List Char := s.data.map Char.toLower

/-- `containsLit w t` is true when `w` occurs as a contiguous substring of `t`. -/
def containsLit (w : List Char) : List Char → Bool
  | [] => w.isEmpty
  | c :: rest => List.isPrefixOf w (c :: rest) || containsLit w rest

/-- `litIn t w` is true when the literal `w` occurs as a contiguous substring
of `t`; embeds a regex alternative that is a plain literal. -/
def litIn (t : List Char) (w : String) : Bool := containsLit w.data t

/-- After a word, match one-or-more whitespace characters followed by `w`
(the `\s+w` tail of a regex such as `fix\s+typo`). -/
def wsThenWord (w : List Char) : List Char → Bool
  | [] => false
  | c :: rest => isJsWS c && (List.isPrefixOf w rest || wsThenWord w rest)

/-- Scan `t` for an occurrence of `w1` followed by one-or-more whitespace
characters followed by `w2`. -/
def containsSpacedAux (w1 w2 : List Char) : List Char → Bool
  | [] => false
  | c :: rest =>
      (List.isPrefixOf w1 (c :: rest) && wsThenWord w2 (List.drop w1.length (c :: rest)))
      || containsSpacedAux w1 w2 rest

/-- `containsSpaced w1 w2 t` embeds the regex fragment `w1\s+w2` tested
against `t`. -/
def containsSpaced (w1 w2 : String) (t : List Char) : Bool :=
  containsSpacedAux w1.data w2.data t

namespace fallback

/-- Embeds `fallback.detectComplexity` from `rust-client.ts` (lines 240-259):
lowercase the task, test the Critical regex
`auth|security|payment|migration|credential|token|encrypt|password` first,
then the Trivial regex `fix\s+typo|update\s+comment|rename|spelling|whitespace`,
then the Simple regex
`add\s+(button|toggle|flag)|toggle|remove\s+unused|update\s+(version|dep)`,
defaulting to standard. -/
def detectComplexity (task : String) : Complexity :=
  let t := lowerChars task
  if litIn t "auth" || litIn t "security" || litIn t "payment" || litIn t "migration" ||
     litIn t "credential" || litIn t "token" || litIn t "encrypt" || litIn t "password" then
    Complexity.critical
  else if containsSpaced "fix" "typo" t || containsSpaced "update" "comment" t ||
     litIn t "rename" || litIn t "spelling" || litIn t "whitespace" then
    Complexity.trivial
  else if containsSpaced "add" "button" t || containsSpaced "add" "toggle" t ||
     containsSpaced "add" "flag" t || litIn t "toggle" ||
     containsSpaced "remove" "unused" t ||
     containsSpaced "update" "version" t || containsSpaced "update" "dep" t then
    Complexity.simple
  else Complexity.standard

/-- Embeds `fallback.calcIterations` from `rust-client.ts` (lines 264-276). -/
def calcIterations (mode : WorkflowMode) (complexity : Complexity) : Nat :=
  let isPlan := mode = WorkflowMode.planning
  match complexity with
  | Complexity.trivial => if isPlan then 2 else 5
  | Complexity.simple => if isPlan then 3 else 10
  | Complexity.critical => if isPlan then 8 else 40
  | Complexity.standard => if isPlan then 5 else 20

end fallback

/-- Embeds the shell complexity heuristic duplicated in
`commands/ralph-beads.md` (Step 5) and extracted verbatim into the test
script (`EXTRACTED_LOGIC`, src/unnamed/part_001 lines 5-21): case-insensitive
`grep -E` tests, TRIVIAL patterns first
(`fix typo|update comment|rename|spelling|whitespace`), then SIMPLE
(`add (button|toggle|flag)|toggle|remove unused|update (version|dep)`),
then CRITICAL (`auth|security|payment|migration|credential|token|encrypt|password`),
defaulting to standard.  Note the ordering differs from
`fallback.detectComplexity`: trivial is tested before critical here. -/
def shellDetectComplexity (task : String) : Complexity :=
  let t := lowerChars task
  if litIn t "fix typo" || litIn t "update comment" || litIn t "rename" ||
     litIn t "spelling" || litIn t "whitespace" then
    Complexity.trivial
  else if litIn t "add button" || litIn t "add toggle" || litIn t "add flag" ||
     litIn t "toggle" || litIn t "remove unused" ||
     litIn t "update version" || litIn t "update dep" then
    Complexity.simple
  else if litIn t "auth" || litIn t "security" || litIn t "payment" || litIn t "migration" ||
     litIn t "credential" || litIn t "token" || litIn t "encrypt" || litIn t "password" then
    Complexity.critical
  else Complexity.standard

/-- C2: the TypeScript fallback classifier checks Critical patterns first and
classifies "fix typo in auth token check" as critical, exactly as the claim
requires; the shell heuristic embedded in the command document and its test
script checks Trivial patterns first and classifies the same description as
trivial, diverging from the claim and from its sibling implementation. -/
theorem c2_classifier_divergence_eval :
    fallback.detectComplexity "fix typo in auth token check" = Complexity.critical
    ∧ shellDetectComplexity "fix typo in auth token check" = Complexity.trivial := by
  exact ⟨rfl, rfl⟩

/-- C3: for every pair of mode in planning/building and tier, the fallback
iteration budget function returns exactly the fixed table: trivial 2/5,
simple 3/10, standard 5/20, critical 8/40. -/
theorem c3_iteration_budget_table :
    fallback.calcIterations WorkflowMode.planning Complexity.trivial = 2
    ∧ fallback.calcIterations WorkflowMode.building Complexity.trivial = 5
    ∧ fallback.calcIterations WorkflowMode.planning Complexity.simple = 3
    ∧ fallback.calcIterations WorkflowMode.building Complexity.simple = 10
    ∧ fallback.calcIterations WorkflowMode.planning Complexity.standard = 5
    ∧ fallback.calcIterations WorkflowMode.building Complexity.standard = 20
    ∧ fallback.calcIterations WorkflowMode.planning Complexity.critical = 8
    ∧ fallback.calcIterations WorkflowMode.building Complexity.critical = 40 := by
  decide

/-- Per-session workflow state, mirroring `SessionState` in `types.ts`
field for field.  Optional TypeScript fields become `Option`; the fresh
state created by `getState` sets only the five non-optional fields. -/
structure SessionState where
  epicId : Option String := none
  moleculeId : Option String := none
  mode : Option WorkflowMode := none
  complexity : Option Complexity := none
  currentTask : Option String := none
  iterationCount : Nat := 0
  failureCount : Nat := 0
  maxIterations : Option Nat := none
  promiseMade : Option String := none
  worktreePath : Option String := none
  branchName : Option String := none
  createPr : Option Bool := none
  filesModified : List String := []
  commitMade : Bool := false
  testsRan : Bool := false
deriving DecidableEq, Repr

/-- JavaScript truthiness of an optional string (`undefined` and `""` are falsy). -/
def strTruthy : Option String → Bool
  | none => false
  | some s => s ≠ ""

/-- The fresh state object created inside `getState` (prompts.ts lines 408-414):
iterationCount 0, failureCount 0, empty filesModified, commitMade and
testsRan false, every other field absent. -/
def freshState : SessionState := {}

/-- Embeds `getState` (prompts.ts lines 405-418) over an association-list
model of the module-level `sessions` map: return the stored state if the
session id is present, otherwise insert and return a fresh state. -/
def getState (sessions : List (String × SessionState)) (sessionId : String) :
    SessionState × List (String × SessionState) :=
  match sessions.lookup sessionId with
  | some st => (st, sessions)
  | none => (freshState, (sessionId, freshState) :: sessions)

/-- Embeds `deleteState` (prompts.ts lines 420-422): remove the session id
from the map. -/
def deleteState (sessions : List (String × SessionState)) (sessionId : String) :
    List (String × SessionState) :=
  sessions.filter (fun p => !(p.1 == sessionId))

/-- External shell commands issued by the plugin handlers, recorded as an
effect trace. -/
inductive Effect
  | gitPush (branch : String)
  | ghPrCreate (branch : String)
  | worktreeRemove (path : String)
  | bdSetState (id key value : String)
  | bdComment (id body : String)
deriving DecidableEq, Repr

/-- Outcome of one `stop` hook invocation: `halt` is a plain return (the
session is allowed to stop), `completeHalt` is the `complete = true` branch
(finalization, then allow stop), `continueIter` is a `client.session.prompt`
continuation. -/
inductive StopDecision
  | halt
  | completeHalt
  | continueIter
deriving DecidableEq, Repr

/-- The budget guard of the `stop` hook (prompts.ts line 535):
`state.maxIterations && state.iterationCount >= state.maxIterations`,
with JavaScript truthiness of the number (`0` is falsy). -/
def budgetHit (s : SessionState) : Bool :=
  match s.maxIterations with
  | some mx => decide (mx ≠ 0) && decide (mx ≤ s.iterationCount)
  | none => false

/-- `state.iterationCount++` as performed on the continue branches. -/
def bump (s : SessionState) : SessionState :=
  { s with iterationCount := s.iterationCount + 1 }

/-- The worktree-cleanup block of the `stop` hook's complete branch
(prompts.ts lines 544-572), as an effect trace: if a worktree path is set
(truthy), then when `createPr`, `branchName` and `epicId` are all truthy a
try-block pushes the branch and requests a PR (`finalizeThrew` models the
try-block throwing after the push, in which case the PR request is skipped
and the error is logged), and in all cases a separate try-block then removes
the worktree. -/
def cleanupFx (s : SessionState) (finalizeThrew : Bool) : List Effect :=
  if strTruthy s.worktreePath then
    (if s.createPr = some true && strTruthy s.branchName && strTruthy s.epicId then
        (if finalizeThrew then
          [Effect.gitPush (s.branchName.getD "")]
        else
          [Effect.gitPush (s.branchName.getD ""), Effect.ghPrCreate (s.branchName.getD "")])
      else [])
    ++ [Effect.worktreeRemove (s.worktreePath.getD "")]
  else []

/-- Embeds the `stop` hook (prompts.ts lines 526-616).  `ready` models the
result of `beads.ready` for the session's molecule (`Except.error` is the
caught exception path).  Branch structure follows the source: missing, paused
or complete mode returns; a hit iteration budget returns; a mode-matching
promise runs cleanup and returns; otherwise building mode continues only
when a ready task exists, and planning mode always continues. -/
def stopHook (s : SessionState) (ready : Except Unit (List String)) (finalizeThrew : Bool) :
    StopDecision × SessionState × List Effect :=
  match s.mode with
  | none => (StopDecision.halt, s, [])
  | some WorkflowMode.paused => (StopDecision.halt, s, [])
  | some WorkflowMode.complete => (StopDecision.halt, s, [])
  | some WorkflowMode.planning =>
      if budgetHit s then (StopDecision.halt, s, [])
      else if s.promiseMade = some "PLAN_READY" then
        (StopDecision.completeHalt, s, cleanupFx s finalizeThrew)
      else (StopDecision.continueIter, bump s, [])
  | some WorkflowMode.building =>
      if budgetHit s then (StopDecision.halt, s, [])
      else if s.promiseMade = some "DONE" then
        (StopDecision.completeHalt, s, cleanupFx s finalizeThrew)
      else if strTruthy s.moleculeId then
        match ready with
        | Except.ok l => if 0 < l.length then (StopDecision.continueIter, bump s, []) else (StopDecision.halt, s, [])
        | Except.error _ => (StopDecision.halt, s, [])
      else (StopDecision.halt, s, [])

/-- Embeds the promise detection of the `event` hook (prompts.ts lines
446-461): the assistant text is scanned for the exact tokens; a text
containing `<promise>DONE</promise>` sets the signal to DONE, one containing
`<promise>PLAN_READY</promise>` then sets it to PLAN_READY, any other text
leaves the previously recorded signal in place. -/
def scanPromise (prev : Option String) (text : String) : Option String :=
  let afterDone := if litIn text.data "<promise>DONE</promise>" then some "DONE" else prev
  if litIn text.data "<promise>PLAN_READY</promise>" then some "PLAN_READY" else afterDone

/-- Helper: no branch of the `stop` hook ever assigns `state.mode`; the mode
of the resulting state always equals the incoming mode. -/
theorem stopHook_preserves_mode (s : SessionState) (r : Except Unit (List String)) (ft : Bool) :
    (stopHook s r ft).2.1.mode = s.mode := by
  unfold stopHook
  cases hm : s.mode with
  | none => simp [hm]
  | some m =>
    cases m
    · by_cases hb : budgetHit s <;> by_cases hp : s.promiseMade = some "PLAN_READY" <;>
        simp [hb, hp, bump, hm]
    · by_cases hb : budgetHit s
      · simp [hb, hm]
      · by_cases hp : s.promiseMade = some "DONE"
        · simp [hb, hp, hm]
        · by_cases hmol : strTruthy s.moleculeId
          · cases r with
            | error e => simp [hb, hp, hmol, hm]
            | ok l => by_cases hl : 0 < l.length <;> simp [hb, hp, hmol, hl, bump, hm]
          · simp [hb, hp, hmol, hm]
    · simp [hm]
    · simp [hm]

/-- C1 (amended): for every session whose mode is Planning or Building, when
the stop hook is invoked with the iteration budget exhausted
(`maxIterations` nonzero and `iterationCount ≥ maxIterations`) it returns
halt and leaves the session state entirely unchanged: the mode stays
Planning/Building rather than being set to Paused, and `iterationCount` is
left at its current value. -/
theorem c1_budget_exhaustion_halts (s : SessionState) (ready : Except Unit (List String))
    (ft : Bool) (hm : s.mode = some WorkflowMode.planning ∨ s.mode = some WorkflowMode.building)
    (hb : budgetHit s = true) :
    stopHook s ready ft = (StopDecision.halt, s, []) := by
  rcases hm with h | h <;> simp [stopHook, h, hb]

/-- A tier=Trivial building session at its budget (maxIterations 5,
iterationCount 5), as in the claim's end-to-end scenario. -/
def c1Session : SessionState :=
  { mode := some WorkflowMode.building, epicId := some "ep-1", moleculeId := some "m-1",
    complexity := some Complexity.trivial, maxIterations := some 5, iterationCount := 5 }

theorem c1_budget_exhaustion_halts_witness :
    budgetHit c1Session = true
    ∧ stopHook c1Session (Except.ok []) false = (StopDecision.halt, c1Session, []) :=
  ⟨by decide, c1_budget_exhaustion_halts c1Session (Except.ok []) false (Or.inr rfl) (by decide)⟩

/-- C1 counterexample: on the 6th invocation of the trivial-tier building
session (iterationCount = 5 = maxIterations) the stop hook halts with
iterationCount still 5, but the session's mode is still Building, not
Paused — the claim's "sets the session's mode to Paused" is false. -/
theorem c1_mode_not_paused_cex :
    (stopHook c1Session (Except.ok []) false).1 = StopDecision.halt
    ∧ (stopHook c1Session (Except.ok []) false).2.1.iterationCount = 5
    ∧ (stopHook c1Session (Except.ok []) false).2.1.mode = some WorkflowMode.building
    ∧ (stopHook c1Session (Except.ok []) false).2.1.mode ≠ some WorkflowMode.paused := by
  decide

/-- C4 (amended): for every Planning/Building session under its iteration
budget, the stop hook runs finalization-and-halt (`completeHalt`) exactly
when the observed completion signal equals the mode-specific token
(PLAN_READY for Planning, DONE for Building); the mode is never changed by
the hook; for a non-matching signal the hook continues in Planning mode and,
in Building mode, whenever the dependency store reports a ready work unit
(with no ready unit, a falsy molecule id, or a store error it halts without
changing the mode); and the promise scanner leaves the recorded signal
unchanged on any worker text that contains neither exact token. -/
theorem c4_completion_gate (s : SessionState) (ready : Except Unit (List String)) (ft : Bool)
    (hm : s.mode = some WorkflowMode.planning ∨ s.mode = some WorkflowMode.building)
    (hb : budgetHit s = false) :
    (((stopHook s ready ft).1 = StopDecision.completeHalt) ↔
      ((s.mode = some WorkflowMode.planning ∧ s.promiseMade = some "PLAN_READY") ∨
       (s.mode = some WorkflowMode.building ∧ s.promiseMade = some "DONE")))
    ∧ (stopHook s ready ft).2.1.mode = s.mode
    ∧ (s.mode = some WorkflowMode.planning → s.promiseMade ≠ some "PLAN_READY" →
        (stopHook s ready ft).1 = StopDecision.continueIter)
    ∧ (∀ l : List String, s.mode = some WorkflowMode.building → s.promiseMade ≠ some "DONE" →
        strTruthy s.moleculeId = true → ready = Except.ok l → l ≠ [] →
        (stopHook s ready ft).1 = StopDecision.continueIter)
    ∧ (∀ (p : Option String) (text : String),
        litIn text.data "<promise>DONE</promise>" = false →
        litIn text.data "<promise>PLAN_READY</promise>" = false →
        scanPromise p text = p)
    ∧ (∀ l : List String, s.mode = some WorkflowMode.building → s.promiseMade ≠ some "DONE" →
        strTruthy s.moleculeId = true → ready = Except.ok l → l = [] →
        (stopHook s ready ft).1 = StopDecision.halt)
    ∧ (s.mode = some WorkflowMode.building → s.promiseMade ≠ some "DONE" →
        strTruthy s.moleculeId = false →
        (stopHook s ready ft).1 = StopDecision.halt)
    ∧ (∀ e : Unit, s.mode = some WorkflowMode.building → s.promiseMade ≠ some "DONE" →
        strTruthy s.moleculeId = true → ready = Except.error e →
        (stopHook s ready ft).1 = StopDecision.halt) := by
  refine ⟨⟨?_, ?_⟩, stopHook_preserves_mode s ready ft, ?_, ?_, ?_, ?_, ?_, ?_⟩
  · intro hch
    rcases hm with h | h
    · by_cases hp : s.promiseMade = some "PLAN_READY"
      · exact Or.inl ⟨h, hp⟩
      · exfalso
        simp [stopHook, h, hb, hp] at hch
    · by_cases hp : s.promiseMade = some "DONE"
      · exact Or.inr ⟨h, hp⟩
      · exfalso
        by_cases hmol : strTruthy s.moleculeId
        · cases ready with
          | error e => simp [stopHook, h, hb, hp, hmol] at hch
          | ok l =>
            by_cases hl : 0 < l.length <;> simp [stopHook, h, hb, hp, hmol, hl] at hch
        · simp [stopHook, h, hb, hp, hmol] at hch
  · intro hsig
    rcases hsig with ⟨h, hp⟩ | ⟨h, hp⟩ <;> simp [stopHook, h, hb, hp]
  · intro h hp
    simp [stopHook, h, hb, hp]
  · intro l h hp hmol hr hl
    subst hr
    have hl' : 0 < l.length := List.length_pos.mpr hl
    simp [stopHook, h, hb, hp, hmol, hl']
  · intro p text h1 h2
    simp [scanPromise, h1, h2]
  · intro l h hp hmol hr hl
    subst hr
    subst hl
    simp [stopHook, h, hb, hp, hmol]
  · intro h hp hmol
    simp [stopHook, h, hb, hp, hmol]
  · intro e h hp hmol hr
    subst hr
    simp [stopHook, h, hb, hp, hmol]

/-- A planning session under budget with no recorded signal, for the C4 witness. -/
def c4Session : SessionState :=
  { mode := some WorkflowMode.planning, epicId := some "ep-2",
    maxIterations := some 8, iterationCount := 2 }

theorem c4_completion_gate_witness :
    budgetHit c4Session = false
    ∧ (stopHook c4Session (Except.ok []) false).1 = StopDecision.continueIter :=
  ⟨by decide,
    (c4_completion_gate c4Session (Except.ok []) false (Or.inl rfl) (by decide)).2.2.1 rfl
      (by decide)⟩

/-- A building session under budget whose recorded signal is the wrong mode's
token, with the store reporting no ready work, for the C4 counterexample. -/
def c4CexSession : SessionState :=
  { mode := some WorkflowMode.building, moleculeId := some "m-2",
    maxIterations := some 5, iterationCount := 1, promiseMade := some "PLAN_READY" }

/-- C4 counterexample: a Building session under budget that observed the
wrong mode's token (PLAN_READY) and has no ready work is halted, not
continued, by the stop hook — refuting the claim's "for any other worker
output ... the controller returns continue" (the mode is indeed left
unchanged). -/
theorem c4_continue_cex :
    budgetHit c4CexSession = false
    ∧ (stopHook c4CexSession (Except.ok []) false).1 = StopDecision.halt
    ∧ (stopHook c4CexSession (Except.ok []) false).1 ≠ StopDecision.continueIter
    ∧ (stopHook c4CexSession (Except.ok []) false).2.1.mode = some WorkflowMode.building := by
  decide

/-- Argument schema of the `ralph-beads` tool (prompts.ts lines 714-728). -/
structure RalphArgs where
  task : String
  mode : Option String := none
  epic : Option String := none
  mol : Option String := none
  resume : Option String := none
  priority : Option Nat := none
  complexity : Option Complexity := none
  validate : Option Bool := none
  skip_validate : Option Bool := none
  worktree : Option Bool := none
  pr : Option Bool := none
  max_iterations : Option Nat := none
  dry_run : Option Bool := none
deriving DecidableEq, Repr

/-- Result of `beads.molShow` as consumed by the execute handler:
`proto_id` and `epic_id` of a molecule. -/
structure MolInfo where
  proto_id : Option String := none
  epic_id : Option String := none
deriving DecidableEq, Repr

/-- Work-unit record of the external dependency store, as read and written
by the prompt-embedded `bd` commands.  `comments` is the unit's append-only
comment log; each comment is tagged by the marker its body carries
(`[ATTEMPT:` / `[VALIDATION REJECTED]` / `[CIRCUIT BREAKER]` / none), which
is what the prompt's `grep`/`jq contains` counting keys on. -/
inductive BdComment
  | attempt (n : Nat) (msg : String)
  | rejectedNote (msg : String)
  | breakerNote (msg : String)
  | note (msg : String)
deriving DecidableEq, Repr

/-- Work-unit statuses used by the repository (`open`, `in_progress`,
`blocked`, `closed`). -/
inductive BdStatus
  | open_
  | in_progress
  | blocked
  | closed
deriving DecidableEq, Repr

structure WorkUnit where
  id : String
  status : BdStatus
  comments : List BdComment
deriving DecidableEq, Repr

/-- Embeds the `ralph-beads` execute handler (prompts.ts lines 729-887)
along the path taken when `args.resume` is a (truthy) molecule id:
`mode` is forced to building and `args.mol` to the resume id; `molShow`
(modelled by lookup in `molecules`) yields the epic via
`proto_id || epic_id`; complexity is the explicit override or the fallback
classification of the task; `maxIterations` is the explicit override (zero
is falsy and ignored) or the fallback calculation; a dry run returns
without touching state; otherwise the session state is updated in place —
`iterationCount` and `failureCount` are set to 0 and `promiseMade` cleared —
and, when `worktree`/`pr` is requested, the worktree fields are set.  The
handler performs no write to any work unit on this path, so the unit list
passes through unchanged.  `beadsReady` models `beads.info()` succeeding. -/
def executeResumePath (beadsReady : Bool) (molecules : List (String × MolInfo))
    (units : List WorkUnit) (prev : SessionState) (rid : String) (args : RalphArgs) :
    Except String (SessionState × List WorkUnit) :=
  if ¬ beadsReady then Except.error "ERROR: Beads not initialized. Run 'bd init' first."
  else if rid = "" then Except.error "execute without a truthy resume id takes other branches"
  else
    match molecules.lookup rid with
    | none => Except.error ("ERROR: Molecule " ++ rid ++ " not found")
    | some mi =>
      let epicId := if strTruthy mi.proto_id then mi.proto_id else mi.epic_id
      if ¬ strTruthy epicId then
        Except.error ("ERROR: Cannot determine epic from molecule " ++ rid)
      else
        let complexity :=
          match args.complexity with
          | some c => c
          | none => fallback.detectComplexity args.task
        let maxIter :=
          match args.max_iterations with
          | some n => if n ≠ 0 then n else fallback.calcIterations WorkflowMode.building complexity
          | none => fallback.calcIterations WorkflowMode.building complexity
        if args.dry_run = some true then Except.ok (prev, units)
        else
          let st : SessionState :=
            { prev with
              mode := some WorkflowMode.building,
              epicId := epicId,
              moleculeId := some rid,
              complexity := some complexity,
              maxIterations := some maxIter,
              iterationCount := 0,
              failureCount := 0,
              promiseMade := none }
          if args.worktree = some true || args.pr = some true then
            Except.ok ({ st with
              worktreePath := some ("../worktree-" ++ rid),
              branchName := some ("molecule/" ++ rid),
              createPr := args.pr }, units)
          else Except.ok (st, units)

/-- C5 (amended): resuming a molecule re-enters Building mode and does not
modify any work unit of the store (their statuses pass through unchanged),
but the in-memory `iterationCount` is not preserved: it is reset to 0,
`failureCount` is reset to 0, `promiseMade` is cleared, and `complexityTier`
is recomputed from the override or the task description rather than kept. -/
theorem c5_resume_effects (beadsReady : Bool) (molecules : List (String × MolInfo))
    (units : List WorkUnit) (prev : SessionState) (rid : String) (args : RalphArgs)
    (hbr : beadsReady = true) (hrid : rid ≠ "")
    (mi : MolInfo) (hmi : molecules.lookup rid = some mi)
    (hep : strTruthy (if strTruthy mi.proto_id then mi.proto_id else mi.epic_id) = true)
    (hdry : args.dry_run ≠ some true) :
    (∃ p, executeResumePath beadsReady molecules units prev rid args = Except.ok p)
    ∧ (∀ (st : SessionState) (us : List WorkUnit),
        executeResumePath beadsReady molecules units prev rid args = Except.ok (st, us) →
        us = units
        ∧ st.iterationCount = 0
        ∧ st.failureCount = 0
        ∧ st.promiseMade = none
        ∧ st.mode = some WorkflowMode.building
        ∧ st.complexity = some (match args.complexity with
            | some c => c
            | none => fallback.detectComplexity args.task)) := by
  subst hbr
  by_cases hw : (args.worktree = some true ∨ args.pr = some true)
  · constructor
    · simp [executeResumePath, hrid, hmi, hep, hdry, hw]
    · intro st us hok
      simp [executeResumePath, hrid, hmi, hep, hdry, hw] at hok
      obtain ⟨hst, hus⟩ := hok
      subst hst
      subst hus
      exact ⟨rfl, rfl, rfl, rfl, rfl, rfl⟩
  · rw [not_or] at hw
    constructor
    · simp [executeResumePath, hrid, hmi, hep, hdry, hw.1, hw.2]
    · intro st us hok
      simp [executeResumePath, hrid, hmi, hep, hdry, hw.1, hw.2] at hok
      obtain ⟨hst, hus⟩ := hok
      subst hst
      subst hus
      exact ⟨rfl, rfl, rfl, rfl, rfl, rfl⟩

theorem c5_resume_effects_witness :
    ([("m-1", ({ proto_id := some "ep-1" } : MolInfo))].lookup "m-1"
        = some ({ proto_id := some "ep-1" } : MolInfo))
    ∧ ("m-1" : String) ≠ ""
    ∧ (∃ p, executeResumePath true [("m-1", { proto_id := some "ep-1" })]
          [⟨"t-1", BdStatus.in_progress, []⟩]
          { mode := some WorkflowMode.paused, iterationCount := 3,
            complexity := some Complexity.critical }
          "m-1" { task := "improve logging" }
        = Except.ok p) :=
  ⟨by decide, by decide,
    (c5_resume_effects true [("m-1", { proto_id := some "ep-1" })]
      [⟨"t-1", BdStatus.in_progress, []⟩]
      { mode := some WorkflowMode.paused, iterationCount := 3,
        complexity := some Complexity.critical }
      "m-1" { task := "improve logging" }
      rfl (by decide) { proto_id := some "ep-1" } (by decide) (by decide) (by decide)).1⟩

/-- C5 counterexample: resuming molecule m-1 from a previously paused session
that had iterationCount 3 and complexityTier critical yields a session with
iterationCount 0 and complexityTier standard (re-detected from the task
text) — the claim's "preserves iterationCount and does not reset
complexityTier" is false; the work unit's status is indeed untouched. -/
theorem c5_resume_reset_cex :
    executeResumePath true [("m-1", { proto_id := some "ep-1" })]
      [⟨"t-1", BdStatus.in_progress, []⟩]
      { mode := some WorkflowMode.paused, iterationCount := 3,
        complexity := some Complexity.critical }
      "m-1" { task := "improve logging" }
    = Except.ok
        ({ mode := some WorkflowMode.building, epicId := some "ep-1",
           moleculeId := some "m-1", complexity := some Complexity.standard,
           maxIterations := some 20, iterationCount := 0, failureCount := 0,
           promiseMade := none },
         [⟨"t-1", BdStatus.in_progress, []⟩])
    ∧ (0 : Nat) ≠ 3
    ∧ some Complexity.standard ≠ some Complexity.critical := by
  exact ⟨rfl, by decide, by decide⟩

/-- The state touched by the `ralph-cancel` tool: the plugin's in-memory
session map, the external store's per-epic `mode` state dimension, and the
set of worktree directories on disk. -/
structure CancelWorld where
  sessions : List (String × SessionState)
  epicModes : List (String × String)
  worktreeDirs : List String
deriving DecidableEq, Repr

/-- Embeds the `ralph-cancel` execute handler (prompts.ts lines 620-658)
for an explicitly supplied epic id (`epicFound` models `beads.show`
returning a record with an id; when it does not, the handler returns a
"not found" message and changes nothing).  On success the handler runs
`bd set-state <epic> mode=paused`, adds a `[CANCELLED]` comment, and
deletes the in-memory session state; the progress listing it then prints
is a read.  It issues no git command at all: no push, no PR, and no
worktree removal. -/
def cancelExecute (w : CancelWorld) (sessionId epicId reason : String) (epicFound : Bool) :
    CancelWorld × List Effect :=
  if epicFound then
    ({ sessions := deleteState w.sessions sessionId,
       epicModes := (epicId, "paused") :: w.epicModes.filter (fun p => !(p.1 == epicId)),
       worktreeDirs := w.worktreeDirs },
     [Effect.bdSetState epicId "mode" "paused",
      Effect.bdComment epicId
        ("[CANCELLED] " ++ reason ++ ". Resume with: /ralph-beads --epic " ++ epicId)])
  else (w, [])

/-- Helper: looking up a key in an association list from which that key was
filtered out yields nothing. -/
theorem lookup_filter_ne_none (l : List (String × SessionState)) (k : String) :
    (l.filter (fun p => !(p.1 == k))).lookup k = none := by
  induction l with
  | nil => rfl
  | cons hd tl ih =>
    obtain ⟨k1, v1⟩ := hd
    by_cases h : k1 == k
    · simp [List.filter_cons, h, ih]
    · have h' : (k1 == k) = false := by simpa using h
      have hne : k1 ≠ k := beq_eq_false_iff_ne.mp h'
      have hk : (k == k1) = false := beq_eq_false_iff_ne.mpr (fun he => hne he.symm)
      simp [List.filter_cons, h', List.lookup, hk, ih]

/-- C6 (amended): an explicit cancel sets the epic's `mode` state to paused,
records a `[CANCELLED]` comment, and deletes the in-memory session state;
it attempts no push and no PR, and performs no lease release — the set of
worktree directories is left exactly as it was. -/
theorem c6_cancel_effects (w : CancelWorld) (sessionId epicId reason : String) :
    ((cancelExecute w sessionId epicId reason true).1.epicModes.lookup epicId = some "paused")
    ∧ ((cancelExecute w sessionId epicId reason true).1.sessions.lookup sessionId = none)
    ∧ ((cancelExecute w sessionId epicId reason true).1.worktreeDirs = w.worktreeDirs)
    ∧ ((cancelExecute w sessionId epicId reason true).2
        = [Effect.bdSetState epicId "mode" "paused",
           Effect.bdComment epicId
             ("[CANCELLED] " ++ reason ++ ". Resume with: /ralph-beads --epic " ++ epicId)])
    ∧ (∀ b : String, Effect.gitPush b ∉ (cancelExecute w sessionId epicId reason true).2)
    ∧ (∀ b : String, Effect.ghPrCreate b ∉ (cancelExecute w sessionId epicId reason true).2)
    ∧ (∀ p : String, Effect.worktreeRemove p ∉ (cancelExecute w sessionId epicId reason true).2) := by
  refine ⟨?_, ?_, rfl, rfl, ?_, ?_, ?_⟩
  · simp [cancelExecute, List.lookup]
  · simpa [cancelExecute, deleteState] using lookup_filter_ne_none w.sessions sessionId
  · intro b
    simp [cancelExecute]
  · intro b
    simp [cancelExecute]
  · intro p
    simp [cancelExecute]

/-- A world holding one building session with an acquired worktree lease,
for the C6 counterexample. -/
def c6World : CancelWorld :=
  { sessions := [("s1",
      { mode := some WorkflowMode.building, epicId := some "ep-1",
        moleculeId := some "m-1", worktreePath := some "../worktree-m-1",
        branchName := some "molecule/m-1", createPr := some true })],
    epicModes := [("ep-1", "building")],
    worktreeDirs := ["../worktree-m-1"] }

/-- C6 counterexample: cancelling the session whose lease directory
`../worktree-m-1` exists leaves that directory in place and issues no
worktree removal (its effect trace is exactly the two `bd` operations) —
the claim's "after cancellation the lease is released and no acquired lease
is left behind on that exit path" is false for this handler. -/
theorem c6_lease_left_cex :
    (cancelExecute c6World "s1" "ep-1" "Cancelled by user" true).1.worktreeDirs
      = ["../worktree-m-1"]
    ∧ (cancelExecute c6World "s1" "ep-1" "Cancelled by user" true).2
      = [Effect.bdSetState "ep-1" "mode" "paused",
         Effect.bdComment "ep-1"
           "[CANCELLED] Cancelled by user. Resume with: /ralph-beads --epic ep-1"] := by
  exact ⟨rfl, rfl⟩

/-- Filesystem state seen by the `ralph-runner` cleanup trap (the bash
script concatenated in `rust-client.ts`, lines 316-345): the durable
tracker file (holding a worktree path when it exists) and the set of
existing directories. -/
structure RunnerFs where
  trackerContent : Option String
  dirs : List String
deriving DecidableEq, Repr

/-- Embeds the `cleanup` function installed by
`trap cleanup EXIT INT TERM`: if the tracker file exists, read the worktree
path from it; if that directory exists, run `git worktree remove --force`
(whose failure is swallowed by `|| true`, modelled by `removeOk = false`
leaving the directory behind); then `rm -f` the tracker file
unconditionally. -/
def runnerCleanup (fs : RunnerFs) (removeOk : Bool) : RunnerFs :=
  match fs.trackerContent with
  | none => fs
  | some p =>
      if p ∈ fs.dirs then
        { trackerContent := none, dirs := if removeOk then fs.dirs.erase p else fs.dirs }
      else { fs with trackerContent := none }

/-- C7: (a) in the stop hook's release path the worktree removal command is
always the last effect, issued after the best-effort push/PR finalization
and regardless of whether the finalization block threw partway (so a
finalization failure never blocks removal); (b) the runner's signal-trap
cleanup is idempotent — running it a second time, with any outcome for the
removal command, is a no-op — which is what makes it safe to install for
EXIT, INT and TERM simultaneously; and (c) the durable tracker record is
deleted even when the worktree removal command itself fails. -/
theorem c7_release_policy :
    (∀ (s : SessionState) (ft : Bool) (p : String), s.worktreePath = some p → p ≠ "" →
      ∃ pre, cleanupFx s ft = pre ++ [Effect.worktreeRemove p]
        ∧ ∀ e ∈ pre, e = Effect.gitPush (s.branchName.getD "")
            ∨ e = Effect.ghPrCreate (s.branchName.getD ""))
    ∧ (∀ (fs : RunnerFs) (b b' : Bool),
        runnerCleanup (runnerCleanup fs b) b' = runnerCleanup fs b)
    ∧ (∀ (fs : RunnerFs) (q : String) (b : Bool),
        fs.trackerContent = some q → (runnerCleanup fs b).trackerContent = none) := by
  refine ⟨?_, ?_, ?_⟩
  · intro s ft p hp hne
    have htr : strTruthy s.worktreePath = true := by simp [strTruthy, hp, hne]
    have hget : s.worktreePath.getD "" = p := by simp [hp]
    refine ⟨(if s.createPr = some true && strTruthy s.branchName && strTruthy s.epicId then
        (if ft then [Effect.gitPush (s.branchName.getD "")]
         else [Effect.gitPush (s.branchName.getD ""), Effect.ghPrCreate (s.branchName.getD "")])
      else []), ?_, ?_⟩
    · simp [cleanupFx, htr, hget]
    · intro e he
      by_cases hpr : (s.createPr = some true && strTruthy s.branchName && strTruthy s.epicId) = true
      · rw [if_pos hpr] at he
        cases ft
        · simp at he
          rcases he with h | h
          · exact Or.inl h
          · exact Or.inr h
        · simp at he
          exact Or.inl he
      · rw [if_neg hpr] at he
        simp at he
  · intro fs b b'
    cases htc : fs.trackerContent with
    | none => simp [runnerCleanup, htc]
    | some p =>
      by_cases hd : p ∈ fs.dirs
      · by_cases hb : b = true
        · subst hb
          simp [runnerCleanup, htc, hd]
        · have hb' : b = false := by
            cases b
            · rfl
            · exact absurd rfl hb
          subst hb'
          simp [runnerCleanup, htc, hd]
      · simp [runnerCleanup, htc, hd]
  · intro fs q b htc
    by_cases hd : q ∈ fs.dirs <;> simp [runnerCleanup, htc, hd]

theorem c7_release_policy_witness :
    (({ worktreePath := some "../worktree-m-1", branchName := some "molecule/m-1",
        epicId := some "ep-1", createPr := some true } : SessionState).worktreePath
      = some "../worktree-m-1")
    ∧ (∃ pre, cleanupFx
          { worktreePath := some "../worktree-m-1", branchName := some "molecule/m-1",
            epicId := some "ep-1", createPr := some true } true
        = pre ++ [Effect.worktreeRemove "../worktree-m-1"]
        ∧ ∀ e ∈ pre, e = Effect.gitPush "molecule/m-1" ∨ e = Effect.ghPrCreate "molecule/m-1")
    ∧ runnerCleanup (runnerCleanup ⟨some "../worktree-m-1", ["../worktree-m-1"]⟩ false) true
        = runnerCleanup ⟨some "../worktree-m-1", ["../worktree-m-1"]⟩ false
    ∧ (runnerCleanup ⟨some "../worktree-m-1", ["../worktree-m-1"]⟩ false).trackerContent = none :=
  ⟨rfl,
    (c7_release_policy.1
      { worktreePath := some "../worktree-m-1", branchName := some "molecule/m-1",
        epicId := some "ep-1", createPr := some true } true "../worktree-m-1" rfl (by decide)),
    c7_release_policy.2.1 ⟨some "../worktree-m-1", ["../worktree-m-1"]⟩ false true,
    c7_release_policy.2.2 ⟨some "../worktree-m-1", ["../worktree-m-1"]⟩ "../worktree-m-1" false rfl⟩

/-- Validation requirement levels from the scaling table (`'skip' | 'auto' |
'required'`). -/
inductive ValidationReq
  | skip
  | auto
  | required
deriving DecidableEq, Repr, Fintype

/-- The tier-indexed validation column of the scaling table that appears in
`commands/ralph-beads.md` (Step 5: Skip / Skip / Auto-enable / Required) and
is enforced by the building prompt's "Validation Phase (Complexity-Based):
If validation enabled (STANDARD/CRITICAL)" section (prompts.ts lines
290-336). -/
def validationFor : Complexity → ValidationReq
  | Complexity.trivial => ValidationReq.skip
  | Complexity.simple => ValidationReq.skip
  | Complexity.standard => ValidationReq.auto
  | Complexity.critical => ValidationReq.required

/-- Effective validation requirement on the opencode-plugin path.  The
`ralph-beads` tool declares `validate` ("Force validation") and
`skip_validate` ("Skip validation") arguments (prompts.ts lines 722-723),
but the execute handler never reads either field and `getBuildingPrompt`
takes no validation parameter: the requirement communicated to the worker
is fixed by the tier alone. -/
def pluginEffectiveValidation (tier : Complexity) (args : RalphArgs) : ValidationReq :=
  validationFor tier

/-- Effective validation requirement on the claude-CLI command path, as the
command document specifies its flags (`commands/ralph-beads.md` lines
372-373): `--validate` — "Force validation even for TRIVIAL/SIMPLE tasks";
`--skip-validate` — "Skip validation for STANDARD tasks (CRITICAL cannot
skip)". -/
def commandEffectiveValidation (tier : Complexity) (validate skip_validate : Bool) :
    ValidationReq :=
  if tier = Complexity.critical then ValidationReq.required
  else if validate then ValidationReq.required
  else if skip_validate ∧ tier = Complexity.standard then ValidationReq.skip
  else validationFor tier

/-- C8 (amended): on both entry paths a Critical tier yields the `required`
validation requirement and no caller-supplied skip flag can downgrade it;
the force-validation upgrade of `skip`/`auto` to `required` holds on the
command-document path, while the opencode plugin accepts the
validate/skip_validate flags but ignores both — its effective requirement
is exactly the tier table for every flag combination. -/
theorem c8_validation_floor :
    (∀ args : RalphArgs, pluginEffectiveValidation Complexity.critical args
        = ValidationReq.required)
    ∧ (∀ v s : Bool, commandEffectiveValidation Complexity.critical v s
        = ValidationReq.required)
    ∧ (∀ (t : Complexity) (s : Bool), commandEffectiveValidation t true s
        = ValidationReq.required)
    ∧ (∀ (t : Complexity) (args : RalphArgs), pluginEffectiveValidation t args
        = validationFor t) := by
  refine ⟨fun _ => rfl, by decide, by decide, fun t _ => rfl⟩

/-- C8 counterexample: a caller who passes the force-validation flag through
the plugin for a trivial-tier request still gets `skip`, not `required` —
the claim's "a caller-supplied force-validation flag may upgrade 'skip' or
'auto' to required" does not hold on the plugin path, where the flag is
ignored. -/
theorem c8_force_flag_ignored_cex :
    pluginEffectiveValidation Complexity.trivial
      { task := "quick tweak", validate := some true } = ValidationReq.skip
    ∧ ValidationReq.skip ≠ ValidationReq.required := by
  exact ⟨rfl, by decide⟩

/-- Marker predicate of the `[ATTEMPT:` comments the circuit breaker counts
(the prompt counts comments whose body contains `[ATTEMPT:`). -/
def isAttempt : BdComment → Bool
  | BdComment.attempt _ _ => true
  | _ => false

/-- Marker predicate of the `[VALIDATION REJECTED]` comments the rejection
breaker counts. -/
def isRejection : BdComment → Bool
  | BdComment.rejectedNote _ => true
  | _ => false

/-- `ATTEMPTS=$(bd comments list $NEXT_TASK --json | jq '[.[] | select(.body
| contains("[ATTEMPT:"))] | length')` — the failure count reconstructed from
the unit's comment log. -/
def countAttempts (cs : List BdComment) : Nat := (cs.filter isAttempt).length

/-- `REJECTIONS=$(... select(.body | contains("[VALIDATION REJECTED]")) ...)`
— the rejection count reconstructed from the unit's comment log. -/
def countRejections (cs : List BdComment) : Nat := (cs.filter isRejection).length

/-- Embeds the failure-side circuit breaker prescribed by the building
prompt (prompts.ts lines 183-209): each failure appends an
`[ATTEMPT:n] Failed: <summary>` comment; when the resulting count reaches 2
the attempt comment carries the `CIRCUIT BREAKER TRIGGERED` note and the
unit's status is set to blocked (`bd update --status=blocked`). -/
def recordFailure (u : WorkUnit) (summary : String) : WorkUnit :=
  let n := countAttempts u.comments + 1
  if 2 ≤ n then
    { u with status := BdStatus.blocked,
             comments := u.comments ++
               [BdComment.attempt n ("Failed: " ++ summary ++ ". CIRCUIT BREAKER TRIGGERED.")] }
  else
    { u with comments := u.comments ++ [BdComment.attempt n ("Failed: " ++ summary)] }

/-- Embeds the rejection-side breaker from the building prompt's validation
phase (prompts.ts lines 325-336): append a `[VALIDATION REJECTED]` comment,
count the rejection comments, and when the count reaches 2 set the status to
blocked and append the `[CIRCUIT BREAKER]` comment. -/
def recordRejection (u : WorkUnit) (feedback : String) : WorkUnit :=
  let withFb := { u with comments := u.comments ++ [BdComment.rejectedNote feedback] }
  if 2 ≤ countRejections withFb.comments then
    { withFb with status := BdStatus.blocked,
                  comments := withFb.comments ++
                    [BdComment.breakerNote "2 validation rejections - marking blocked"] }
  else withFb

/-- Helper: appending one attempt comment raises the attempt count by one
and leaves the rejection count unchanged. -/
theorem counts_append_attempt (cs : List BdComment) (n : Nat) (m : String) :
    countAttempts (cs ++ [BdComment.attempt n m]) = countAttempts cs + 1
    ∧ countRejections (cs ++ [BdComment.attempt n m]) = countRejections cs := by
  constructor <;> simp [countAttempts, countRejections, List.filter_append, isAttempt, isRejection]

/-- Helper: appending one rejection comment raises the rejection count by
one and leaves the attempt count unchanged. -/
theorem counts_append_rejection (cs : List BdComment) (m : String) :
    countRejections (cs ++ [BdComment.rejectedNote m]) = countRejections cs + 1
    ∧ countAttempts (cs ++ [BdComment.rejectedNote m]) = countAttempts cs := by
  constructor <;> simp [countAttempts, countRejections, List.filter_append, isAttempt, isRejection]

/-- Helper: the status after `recordFailure` is blocked exactly when the new
attempt count reaches 2, and the prior status otherwise. -/
theorem recordFailure_status (u : WorkUnit) (s : String) :
    (recordFailure u s).status
      = if 2 ≤ countAttempts u.comments + 1 then BdStatus.blocked else u.status := by
  by_cases h : 2 ≤ countAttempts u.comments + 1 <;> simp [recordFailure, h]

/-- Helper: `recordFailure` appends exactly one attempt comment, so the
attempt count rises by one and the rejection count is unchanged. -/
theorem recordFailure_counts (u : WorkUnit) (s : String) :
    countAttempts (recordFailure u s).comments = countAttempts u.comments + 1
    ∧ countRejections (recordFailure u s).comments = countRejections u.comments := by
  by_cases h : 2 ≤ countAttempts u.comments + 1
  · simp only [recordFailure]
    rw [if_pos h]
    exact counts_append_attempt u.comments _ _
  · simp only [recordFailure]
    rw [if_neg h]
    exact counts_append_attempt u.comments _ _

/-- Helper: the status after `recordRejection` is blocked exactly when the
new rejection count reaches 2, and the prior status otherwise. -/
theorem recordRejection_status (u : WorkUnit) (r : String) :
    (recordRejection u r).status
      = if 2 ≤ countRejections u.comments + 1 then BdStatus.blocked else u.status := by
  have hc := (counts_append_rejection u.comments r).1
  by_cases h : 2 ≤ countRejections u.comments + 1 <;> simp [recordRejection, hc, h]

/-- C9: for a work unit whose log holds no prior failure and no prior
rejection, one recorded failure leaves the status unchanged (still
retryable); a second recorded failure sets the status to Blocked; a third
`recordFailure` after blocking leaves the status Blocked (a no-op on the
unit's status and hence on ready-selection — the attempt log itself is
append-only by design); and the failure and rejection counters are
independent: one failure plus one rejection on the same unit trips neither
breaker, leaving the status unchanged. -/
theorem c9_circuit_breaker (u : WorkUnit) (s1 s2 s3 f r : String)
    (ha : countAttempts u.comments = 0) (hr : countRejections u.comments = 0) :
    (recordFailure u s1).status = u.status
    ∧ (recordFailure (recordFailure u s1) s2).status = BdStatus.blocked
    ∧ (recordFailure (recordFailure (recordFailure u s1) s2) s3).status = BdStatus.blocked
    ∧ (recordRejection (recordFailure u f) r).status = u.status := by
  have hA1 := (recordFailure_counts u s1).1
  have hA2 := (recordFailure_counts (recordFailure u s1) s2).1
  refine ⟨?_, ?_, ?_, ?_⟩
  · rw [recordFailure_status, ha]
    norm_num
  · rw [recordFailure_status, hA1, ha]
    norm_num
  · rw [recordFailure_status, hA2, hA1, ha]
    norm_num
  · have hrf : countRejections (recordFailure u f).comments = 0 := by
      rw [(recordFailure_counts u f).2, hr]
    rw [recordRejection_status, hrf]
    have hlt : ¬ (2 ≤ 0 + 1) := by omega
    rw [if_neg hlt, recordFailure_status, ha]
    norm_num

theorem c9_circuit_breaker_witness :
    countAttempts ([] : List BdComment) = 0
    ∧ countRejections ([] : List BdComment) = 0
    ∧ ((recordFailure ⟨"t-9", BdStatus.open_, []⟩ "e1").status = BdStatus.open_
       ∧ (recordFailure (recordFailure ⟨"t-9", BdStatus.open_, []⟩ "e1") "e2").status
           = BdStatus.blocked
       ∧ (recordFailure (recordFailure (recordFailure ⟨"t-9", BdStatus.open_, []⟩ "e1") "e2")
           "e3").status = BdStatus.blocked
       ∧ (recordRejection (recordFailure ⟨"t-9", BdStatus.open_, []⟩ "f1") "r1").status
           = BdStatus.open_) :=
  ⟨rfl, rfl,
    c9_circuit_breaker ⟨"t-9", BdStatus.open_, []⟩ "e1" "e2" "e3" "f1" "r1" rfl rfl⟩

/-- C10: `getState` is idempotent per session id — for an id absent from the
sessions map it inserts and returns a fresh state with iterationCount 0,
failureCount 0, empty filesModified and commitMade = testsRan = false; for
an id already present it returns the stored state and leaves the map
untouched; and calling `getState` again on the map returned by a first call
returns exactly the same state and map as the first call. -/
theorem c10_getState_idempotent (m : List (String × SessionState)) (sid : String) :
    (m.lookup sid = none →
      ((getState m sid).1 = freshState
       ∧ (getState m sid).1.iterationCount = 0
       ∧ (getState m sid).1.failureCount = 0
       ∧ (getState m sid).1.filesModified = []
       ∧ (getState m sid).1.commitMade = false
       ∧ (getState m sid).1.testsRan = false
       ∧ (getState m sid).2 = (sid, freshState) :: m))
    ∧ (∀ st : SessionState, m.lookup sid = some st → getState m sid = (st, m))
    ∧ getState (getState m sid).2 sid = ((getState m sid).1, (getState m sid).2) := by
  refine ⟨?_, ?_, ?_⟩
  · intro hnone
    simp [getState, hnone, freshState]
  · intro st hsome
    simp [getState, hsome]
  · cases hl : m.lookup sid with
    | some st => simp [getState, hl]
    | none =>
      have hfresh : (((sid, freshState) :: m).lookup sid) = some freshState := by
        simp [List.lookup]
      simp [getState, hl, hfresh]

theorem c10_getState_idempotent_witness :
    (([] : List (String × SessionState)).lookup "s1" = none)
    ∧ ((getState [] "s1").1.iterationCount = 0
       ∧ (getState [] "s1").1.failureCount = 0
       ∧ (getState [] "s1").1.filesModified = []
       ∧ (getState [] "s1").1.commitMade = false
       ∧ (getState [] "s1").1.testsRan = false)
    ∧ getState (getState [] "s1").2 "s1" = ((getState [] "s1").1, (getState [] "s1").2) :=
  ⟨rfl,
    ⟨((c10_getState_idempotent [] "s1").1 rfl).2.1,
     ((c10_getState_idempotent [] "s1").1 rfl).2.2.1,
     ((c10_getState_idempotent [] "s1").1 rfl).2.2.2.1,
     ((c10_getState_idempotent [] "s1").1 rfl).2.2.2.2.1,
     ((c10_getState_idempotent [] "s1").1 rfl).2.2.2.2.2.1⟩,
    (c10_getState_idempotent [] "s1").2.2⟩
